import Mathlib

/-!
# OrbKit core — verification of the multi-backend rendering engine

Shallow embedding of the orbkit repository's core rendering engine:
color parsing (`hexToVec3`, `hexToHsl`, `hslToHex`), the WebGL fragment
shader's per-orb distance computation (3D simplex noise + fractal sum),
the deterministic animation math (`getOrbitParams`, `calculateDriftOffset`,
`generateDriftKeyframes`), the WebGL renderer's `setOrbs` truncation,
the Canvas/WebGL frame-loop start/stop state machine, and
`detectBestRenderer`'s process-wide cache.

Pure numeric code is embedded over `ℚ` where the source only uses
rational arithmetic (hex parsing, HSL conversion, simplex noise) and over
`ℝ` where the source uses `Math.sin` / `Math.cos` / `Math.PI` /
`Math.SQRT1_2` (orbit parameters, drift offsets, keyframes).
-/

namespace Orbkit

/-! ## JavaScript primitives

The color utilities rely on `String.prototype.replace` (first occurrence
only), `String.prototype.substring`, and `Number.parseInt(s, 16)`.
We model them over `List Char`. -/

/-- JS `str.replace('#', '')`: removes only the first occurrence of `#`. -/
def removeFirstHash : List Char → List Char
  | [] => []
  | c :: rest => if c = '#' then rest else c :: removeFirstHash rest

/-- JS `str.substring(a, b)` for `a ≤ b`: characters at indices `[a, b)`,
clamped to the string length. -/
def jsSubstring (s : List Char) (a b : ℕ) : List Char :=
  (s.drop a).take (b - a)

/-- Whitespace characters skipped by JS `parseInt`. -/
def isJsWhitespace (c : Char) : Bool :=
  c = ' ' || c = '\t' || c = '\n' || c = '\r'

/-- Is `c` a hexadecimal digit? -/
def isHexDigit (c : Char) : Bool :=
  ('0' ≤ c && c ≤ '9') || ('a' ≤ c && c ≤ 'f') || ('A' ≤ c && c ≤ 'F')

/-- Numeric value of a hexadecimal digit character. -/
def hexDigitVal (c : Char) : ℕ :=
  if '0' ≤ c && c ≤ '9' then c.toNat - '0'.toNat
  else if 'a' ≤ c && c ≤ 'f' then c.toNat - 'a'.toNat + 10
  else if 'A' ≤ c && c ≤ 'F' then c.toNat - 'A'.toNat + 10
  else 0

/-- Accumulate the longest leading run of hex digits; `none` when the run
is empty (JS `NaN`). -/
def hexDigitsAcc : List Char → Option ℕ → Option ℕ
  | [], acc => acc
  | c :: rest, acc =>
    if isHexDigit c then
      hexDigitsAcc rest (some ((acc.getD 0) * 16 + hexDigitVal c))
    else acc

/-- JS `Number.parseInt(s, 16)`: skip leading whitespace, read an optional
sign, strip a leading `0x`/`0X`, then parse the longest prefix of hex
digits; `none` models `NaN` (no digits at all). -/
def jsParseIntHex (s : List Char) : Option ℤ :=
  let t := s.dropWhile isJsWhitespace
  let signAndRest : Bool × List Char :=
    match t with
    | '+' :: r => (false, r)
    | '-' :: r => (true, r)
    | r => (false, r)
  let body : List Char :=
    match signAndRest.2 with
    | '0' :: 'x' :: r => r
    | '0' :: 'X' :: r => r
    | r => r
  (hexDigitsAcc body none).map (fun n => if signAndRest.1 then -(n : ℤ) else (n : ℤ))

/-! ## `hexToVec3` (webgl-renderer.ts)

```ts
export function hexToVec3(hex: string): [number, number, number] {
  const cleaned = hex.replace('#', '');
  if (cleaned.length < 6) return [0, 0, 0];
  const r = Number.parseInt(cleaned.substring(0, 2), 16) / 255;
  const g = Number.parseInt(cleaned.substring(2, 4), 16) / 255;
  const b = Number.parseInt(cleaned.substring(4, 6), 16) / 255;
  if (Number.isNaN(r) || Number.isNaN(g) || Number.isNaN(b)) return [0, 0, 0];
  return [r, g, b];
}
```
-/

/-- `hexToVec3` from the WebGL renderer; `none` components model `NaN`. -/
def hexToVec3 (hex : String) : ℚ × ℚ × ℚ :=
  let cleaned := removeFirstHash hex.toList
  if cleaned.length < 6 then (0, 0, 0)
  else
    let r := (jsParseIntHex (jsSubstring cleaned 0 2)).map (fun n => (n : ℚ) / 255)
    let g := (jsParseIntHex (jsSubstring cleaned 2 4)).map (fun n => (n : ℚ) / 255)
    let b := (jsParseIntHex (jsSubstring cleaned 4 6)).map (fun n => (n : ℚ) / 255)
    match r, g, b with
    | some rv, some gv, some bv => (rv, gv, bv)
    | _, _, _ => (0, 0, 0)

example : hexToVec3 "#ff0000" = (1, 0, 0) := by with_unfolding_all decide
example : hexToVec3 "#ff00001" = (1, 0, 0) := by with_unfolding_all decide
example : hexToVec3 "zz" = (0, 0, 0) := by with_unfolding_all decide
example : hexToVec3 "#fz1234" = (15 / 255, 18 / 255, 52 / 255) := by
  with_unfolding_all decide

/-! ## `hexToHsl` / `hslToHex` (editor orb-list.tsx)

```ts
export function hexToHsl(hex: string): HslColor {
  const cleaned = hex.replace('#', '');
  const r = Number.parseInt(cleaned.substring(0, 2), 16) / 255;
  ...
}
```
`none` models the NaN-poisoned result JS produces when a component fails
to parse; all claims evaluate it on well-formed input only. -/

/-- An HSL color as produced by `hexToHsl` (h in degrees, s/l in percent). -/
structure HslColor where
  h : ℚ
  s : ℚ
  l : ℚ
  deriving DecidableEq, Repr

/-- `hexToHsl` from the editor. -/
def hexToHsl (hex : String) : Option HslColor :=
  let cleaned := removeFirstHash hex.toList
  match jsParseIntHex (jsSubstring cleaned 0 2),
        jsParseIntHex (jsSubstring cleaned 2 4),
        jsParseIntHex (jsSubstring cleaned 4 6) with
  | some ri, some gi, some bi =>
    let r : ℚ := (ri : ℚ) / 255
    let g : ℚ := (gi : ℚ) / 255
    let b : ℚ := (bi : ℚ) / 255
    let maxc := max r (max g b)
    let minc := min r (min g b)
    let l := (maxc + minc) / 2
    -- Source (orb-list.tsx:82): `if (max === min) { return { h: 0, s: 0, l }; }`
    -- — the achromatic branch returns `l` still in 0–1, unlike the chromatic
    -- branch below, which scales to percent.
    if maxc = minc then some ⟨0, 0, l⟩
    else
      let d := maxc - minc
      let s := if l > 1/2 then d / (2 - maxc - minc) else d / (maxc + minc)
      let h :=
        if maxc = r then ((g - b) / d + (if g < b then 6 else 0)) / 6
        else if maxc = g then ((b - r) / d + 2) / 6
        else ((r - g) / d + 4) / 6
      some ⟨h * 360, s * 100, l * 100⟩
  | _, _, _ => none

/-- The `hueToRgb` helper used by `hslToHex`. -/
def hueToRgb (p q t : ℚ) : ℚ :=
  let adjusted := if t < 0 then t + 1 else t
  let adjusted := if adjusted > 1 then adjusted - 1 else adjusted
  if adjusted < 1/6 then p + (q - p) * 6 * adjusted
  else if adjusted < 1/2 then q
  else if adjusted < 2/3 then p + (q - p) * (2/3 - adjusted) * 6
  else p

/-- JS `Math.round`: round half toward positive infinity. -/
def jsRound (q : ℚ) : ℤ := ⌊q + 1/2⌋

/-- Lowercase hexadecimal digit for `n < 16` (JS `toString(16)`). -/
def hexDigitChar (n : ℕ) : Char :=
  if n < 10 then Char.ofNat ('0'.toNat + n)
  else Char.ofNat ('a'.toNat + (n - 10))

/-- JS `n.toString(16).padStart(2, '0')` for `0 ≤ n < 256`. -/
def toHexByte (n : ℤ) : List Char :=
  let m := n.toNat
  if m < 16 then ['0', hexDigitChar m]
  else [hexDigitChar (m / 16), hexDigitChar (m % 16)]

/-- `hslToHex` from the editor. -/
def hslToHex (h s l : ℚ) : String :=
  let sNorm := s / 100
  let lNorm := l / 100
  let rgb : ℚ × ℚ × ℚ :=
    if sNorm = 0 then (lNorm, lNorm, lNorm)
    else
      let q := if lNorm < 1/2 then lNorm * (1 + sNorm) else lNorm + sNorm - lNorm * sNorm
      let p := 2 * lNorm - q
      (hueToRgb p q (h / 360 + 1/3), hueToRgb p q (h / 360), hueToRgb p q (h / 360 - 1/3))
  ⟨'#' :: (toHexByte (jsRound (rgb.1 * 255)) ++
    toHexByte (jsRound (rgb.2.1 * 255)) ++ toHexByte (jsRound (rgb.2.2 * 255)))⟩

example : (hexToHsl "#ff0000").map (fun c => hslToHex c.h c.s c.l) = some "#ff0000" := by
  with_unfolding_all decide
example : (hexToHsl "#4a90d9").map (fun c => hslToHex c.h c.s c.l) = some "#4a90d9" := by
  with_unfolding_all decide

/-! ## WebGL fragment shader (webgl-renderer.ts, `FRAGMENT_SHADER_BODY`)

Exact embedding over `ℚ` of the GLSL numerics used for the per-orb
distance perturbation: `mod289`, `permute`, `taylorInvSqrt`, `snoise`
(Ashima Arts 3D simplex noise), `fbm` (4 octaves), and the perturbed
distance computed in `main`. All GLSL operations involved are rational
(floor, step, min, max, abs, dot, polynomials), so the embedding is
exact. -/

/-- GLSL `vec3` over `ℚ`. -/
structure V3 where
  x : ℚ
  y : ℚ
  z : ℚ
  deriving DecidableEq, Repr

/-- GLSL `vec4` over `ℚ`. -/
structure V4 where
  x : ℚ
  y : ℚ
  z : ℚ
  w : ℚ
  deriving DecidableEq, Repr

namespace V3

def add (a b : V3) : V3 := ⟨a.x + b.x, a.y + b.y, a.z + b.z⟩
def sub (a b : V3) : V3 := ⟨a.x - b.x, a.y - b.y, a.z - b.z⟩
/-- vec3 + float (componentwise, as in GLSL). -/
def addS (a : V3) (s : ℚ) : V3 := ⟨a.x + s, a.y + s, a.z + s⟩
/-- float * vec3. -/
def smul (s : ℚ) (a : V3) : V3 := ⟨s * a.x, s * a.y, s * a.z⟩
def dot (a b : V3) : ℚ := a.x * b.x + a.y * b.y + a.z * b.z
def fl (a : V3) : V3 := ⟨⌊a.x⌋, ⌊a.y⌋, ⌊a.z⌋⟩
/-- GLSL `step(edge, x)`: componentwise `x < edge ? 0 : 1`. -/
def step (edge a : V3) : V3 :=
  ⟨if a.x < edge.x then 0 else 1, if a.y < edge.y then 0 else 1,
   if a.z < edge.z then 0 else 1⟩
def minc (a b : V3) : V3 := ⟨min a.x b.x, min a.y b.y, min a.z b.z⟩
def maxc (a b : V3) : V3 := ⟨max a.x b.x, max a.y b.y, max a.z b.z⟩
def yzx (a : V3) : V3 := ⟨a.y, a.z, a.x⟩
def zxy (a : V3) : V3 := ⟨a.z, a.x, a.y⟩

end V3

namespace V4

def add (a b : V4) : V4 := ⟨a.x + b.x, a.y + b.y, a.z + b.z, a.w + b.w⟩
def sub (a b : V4) : V4 := ⟨a.x - b.x, a.y - b.y, a.z - b.z, a.w - b.w⟩
def addS (a : V4) (s : ℚ) : V4 := ⟨a.x + s, a.y + s, a.z + s, a.w + s⟩
def smul (s : ℚ) (a : V4) : V4 := ⟨s * a.x, s * a.y, s * a.z, s * a.w⟩
/-- Componentwise product (GLSL `*` on two vectors). -/
def mulc (a b : V4) : V4 := ⟨a.x * b.x, a.y * b.y, a.z * b.z, a.w * b.w⟩
def dot (a b : V4) : ℚ := a.x * b.x + a.y * b.y + a.z * b.z + a.w * b.w
def fl (a : V4) : V4 := ⟨⌊a.x⌋, ⌊a.y⌋, ⌊a.z⌋, ⌊a.w⌋⟩
def absc (a : V4) : V4 := ⟨|a.x|, |a.y|, |a.z|, |a.w|⟩
def step (edge a : V4) : V4 :=
  ⟨if a.x < edge.x then 0 else 1, if a.y < edge.y then 0 else 1,
   if a.z < edge.z then 0 else 1, if a.w < edge.w then 0 else 1⟩
def maxS (a : V4) (s : ℚ) : V4 := ⟨max a.x s, max a.y s, max a.z s, max a.w s⟩
def neg (a : V4) : V4 := ⟨-a.x, -a.y, -a.z, -a.w⟩
def xzyw (a : V4) : V4 := ⟨a.x, a.z, a.y, a.w⟩
def xxyy (a : V4) : V4 := ⟨a.x, a.x, a.y, a.y⟩
def zzww (a : V4) : V4 := ⟨a.z, a.z, a.w, a.w⟩

end V4

/-- GLSL `mod289` on vec3. -/
def mod289v3 (a : V3) : V3 :=
  V3.sub a (V3.smul 289 ((V3.smul (1/289) a).fl))

/-- GLSL `mod289` on vec4. -/
def mod289v4 (a : V4) : V4 :=
  V4.sub a (V4.smul 289 ((V4.smul (1/289) a).fl))

/-- GLSL `permute(x) = mod289(((x * 34.0) + 10.0) * x)`. -/
def permute (a : V4) : V4 :=
  mod289v4 (V4.mulc ((V4.smul 34 a).addS 10) a)

/-- GLSL `taylorInvSqrt(r) = 1.79284291400159 - 0.85373472095314 * r`. -/
def taylorInvSqrt (r : V4) : V4 :=
  (V4.smul (-0.85373472095314) r).addS 1.79284291400159

/-- Ashima Arts 3D simplex noise `snoise(v)` from the fragment shader,
translated operation for operation. -/
def snoise (v : V3) : ℚ :=
  -- const vec2 C = vec2(1/6, 1/3); const vec4 D = vec4(0, 0.5, 1, 2);
  let i0 := (v.addS (v.dot ⟨1/3, 1/3, 1/3⟩)).fl
  let x0 := (v.sub i0).addS (i0.dot ⟨1/6, 1/6, 1/6⟩)
  let g := V3.step x0.yzx x0
  let l := (V3.smul (-1) g).addS 1
  let i1 := V3.minc g l.zxy
  let i2 := V3.maxc g l.zxy
  let x1 := (x0.sub i1).addS (1/6)
  let x2 := (x0.sub i2).addS (1/3)
  let x3 := x0.addS (-(1/2))
  let i := mod289v3 i0
  let p := permute ((V4.addS (permute ((V4.addS (permute
      ((⟨0, i1.z, i2.z, 1⟩ : V4).addS i.z)) i.y).add ⟨0, i1.y, i2.y, 1⟩))
      i.x).add ⟨0, i1.x, i2.x, 1⟩)
  let nU : ℚ := 0.142857142857
  -- ns = n_ * D.wyz - D.xzx
  let ns : V3 := ⟨nU * 2 - 0, nU * (1/2) - 1, nU * 1 - 0⟩
  let j := p.sub (V4.smul 49 ((V4.smul (ns.z * ns.z) p).fl))
  let xU := (V4.smul ns.z j).fl
  let yU := (j.sub (V4.smul 7 xU)).fl
  let x := (V4.smul ns.x xU).addS ns.y
  let y := (V4.smul ns.x yU).addS ns.y
  -- h = 1.0 - abs(x) - abs(y)
  let h := ((x.absc.add y.absc).neg).addS 1
  let b0 : V4 := ⟨x.x, x.y, y.x, y.y⟩
  let b1 : V4 := ⟨x.z, x.w, y.z, y.w⟩
  let s0 := (V4.smul 2 b0.fl).addS 1
  let s1 := (V4.smul 2 b1.fl).addS 1
  let sh := (V4.step h ⟨0, 0, 0, 0⟩).neg
  let a0 := b0.xzyw.add (V4.mulc s0.xzyw sh.xxyy)
  let a1 := b1.xzyw.add (V4.mulc s1.xzyw sh.zzww)
  let p0 : V3 := ⟨a0.x, a0.y, h.x⟩
  let p1 : V3 := ⟨a0.z, a0.w, h.y⟩
  let p2 : V3 := ⟨a1.x, a1.y, h.z⟩
  let p3 : V3 := ⟨a1.z, a1.w, h.w⟩
  let norm := taylorInvSqrt ⟨p0.dot p0, p1.dot p1, p2.dot p2, p3.dot p3⟩
  let q0 := V3.smul norm.x p0
  let q1 := V3.smul norm.y p1
  let q2 := V3.smul norm.z p2
  let q3 := V3.smul norm.w p3
  let m := V4.maxS ((V4.smul (-1) ⟨x0.dot x0, x1.dot x1, x2.dot x2, x3.dot x3⟩).addS (1/2)) 0
  let m2 := V4.mulc m m
  105 * (V4.dot (V4.mulc m2 m2) ⟨q0.dot x0, q1.dot x1, q2.dot x2, q3.dot x3⟩)

/-- Fractal Brownian motion loop body from `fbm` (4 octaves:
`value += amplitude * snoise(p); p *= 2.0; amplitude *= 0.5`). -/
def fbmAux : ℕ → V3 → ℚ → ℚ → ℚ
  | 0, _, _, value => value
  | n + 1, p, amplitude, value =>
    fbmAux n (V3.smul 2 p) (amplitude * 0.5) (value + amplitude * snoise p)

/-- `fbm(p)` from the fragment shader: 4 octaves of simplex noise. -/
def fbm (p : V3) : ℚ := fbmAux 4 p 0.5 0

/-- The distance the fragment shader actually uses for the radial falloff
of orb `i` at pixel `uv` and time `t`: the aspect-corrected base distance
(`length(diff)`, passed in as `baseDist`) plus the unconditional noise
perturbation from `main`:

```glsl
float dist = length(diff);
float noise = fbm(vec3(uv * 3.0, u_time * 0.3 + float(i)));
dist += noise * 0.08;
```

There is no per-orb wavy gate in the shader: this perturbation is applied
to every orb. -/
def shaderOrbDist (baseDist : ℚ) (uv : ℚ × ℚ) (time : ℚ) (i : ℕ) : ℚ :=
  baseDist + fbm ⟨uv.1 * 3, uv.2 * 3, time * 0.3 + (i : ℚ)⟩ * 0.08

/-- The uniforms declared by `FRAGMENT_SHADER_BODY` in webgl-renderer.ts
(the host↔shader binding contract), in declaration order. -/
def fragmentShaderUniforms : List String :=
  ["u_resolution", "u_time", "u_orbCount", "u_orbColors", "u_orbPositions",
   "u_orbSizes", "u_orbBlurs", "u_orbBlendModes", "u_grainIntensity",
   "u_background"]

/-! ## Animation math (utils/blob.ts)

`getOrbitParams`, `calculateDriftOffset` and `generateDriftKeyframes`
use `Math.sin`, `Math.cos`, `Math.PI`, `Math.SQRT1_2` and the JS `%`
operator, so they are embedded over `ℝ`. The JS `%` operator is the
truncated remainder: `a % b = a - b * trunc(a / b)`. -/

/-- JS truncation toward zero (`Math.trunc`, and the rounding used by
the JS `%` operator). -/
noncomputable def jsTrunc (x : ℝ) : ℤ := if 0 ≤ x then ⌊x⌋ else ⌈x⌉

/-- The JS `%` operator on numbers: remainder with the sign of the
dividend, `a % b = a - b * trunc(a / b)`. -/
noncomputable def jsMod (a b : ℝ) : ℝ := a - b * jsTrunc (a / b)

/-- `OrbitParams` from types.ts: `{ amplitudeX, amplitudeY, duration, delay }`. -/
structure OrbitParams where
  amplitudeX : ℝ
  amplitudeY : ℝ
  duration : ℝ
  delay : ℝ

/-- Duration/amplitude bounds from utils/blob.ts. -/
def MAX_DURATION : ℝ := 40
def MIN_DURATION : ℝ := 6
def MIN_AMPLITUDE : ℝ := 2
def MAX_AMPLITUDE : ℝ := 10

/-- `positionSeed(x, y) = x * 1000 + y * 7919`. -/
def positionSeed (x y : ℝ) : ℝ := x * 1000 + y * 7919

/-- `seededRandom(seed)`: `x = Math.sin(seed) * 10000; return x - Math.floor(x)`. -/
noncomputable def seededRandom (seed : ℝ) : ℝ :=
  Real.sin seed * 10000 - ⌊Real.sin seed * 10000⌋

/-- `getOrbitParams(x, y, index, breathing)` from utils/blob.ts, translated
line for line. -/
noncomputable def getOrbitParams (x y : ℝ) (index : ℕ) (breathing : ℝ) :
    OrbitParams :=
  let seed := positionSeed x y
  let rand1 := seededRandom seed
  let rand2 := seededRandom (seed + 1)
  let breathingFactor := breathing / 100
  let amplitudeRange := MAX_AMPLITUDE - MIN_AMPLITUDE
  let amplitudeX := MIN_AMPLITUDE + rand1 * amplitudeRange * breathingFactor
  let amplitudeY := MIN_AMPLITUDE + rand2 * amplitudeRange * breathingFactor
  let durationRange := MAX_DURATION - MIN_DURATION
  let baseDuration := MIN_DURATION + (1 - breathingFactor) * durationRange
  let duration := baseDuration * (1 + (index : ℝ) * 0.3)
  let delay := (index : ℝ) * (-baseDuration) * 0.25
  ⟨amplitudeX, amplitudeY, duration, delay⟩

/-- `calculateDriftOffset(params, timeMs)` from utils/blob.ts:

```ts
if (duration <= 0) return { x: 0, y: 0 };
const timeSec = timeMs / 1000;
const t = (((timeSec + delay) % duration) + duration) % duration;
const angle = (t / duration) * Math.PI * 2;
return { x: (Math.cos(angle) * amplitudeX) / 100,
         y: (Math.sin(angle) * amplitudeY) / 100 };
```
-/
noncomputable def calculateDriftOffset (params : OrbitParams) (timeMs : ℝ) :
    ℝ × ℝ :=
  if params.duration ≤ 0 then (0, 0)
  else
    let timeSec := timeMs / 1000
    let t := jsMod (jsMod (timeSec + params.delay) params.duration +
      params.duration) params.duration
    let angle := t / params.duration * Real.pi * 2
    (Real.cos angle * params.amplitudeX / 100,
     Real.sin angle * params.amplitudeY / 100)

/-- One drift keyframe: offset fraction of the cycle and the numeric
`translate(x%, y%)` pair of the transform string. -/
structure DriftKeyframe where
  offset : ℚ
  tx : ℝ
  ty : ℝ

/-- `generateDriftKeyframes(amplitudeX, amplitudeY)` from utils/blob.ts:
the 9 keyframe stops, with each `translate` string represented by its
numeric percentage pair. `cos45 = Math.SQRT1_2 = √2 / 2`.
`generateDriftKeyframeCSS` emits the same 9 stops (0%, 12.5%, …, 100%)
with the same translate values as one `@keyframes` string. -/
noncomputable def generateDriftKeyframes (amplitudeX amplitudeY : ℝ) :
    List DriftKeyframe :=
  let cos45 : ℝ := Real.sqrt 2 / 2
  [⟨0, amplitudeX, 0⟩,
   ⟨0.125, amplitudeX * cos45, amplitudeY * cos45⟩,
   ⟨0.25, 0, amplitudeY⟩,
   ⟨0.375, -amplitudeX * cos45, amplitudeY * cos45⟩,
   ⟨0.5, -amplitudeX, 0⟩,
   ⟨0.625, -amplitudeX * cos45, -amplitudeY * cos45⟩,
   ⟨0.75, 0, -amplitudeY⟩,
   ⟨0.875, amplitudeX * cos45, -amplitudeY * cos45⟩,
   ⟨1, amplitudeX, 0⟩]

/-! ## Renderer data model (types.ts) and WebGL `setOrbs` -/

/-- The closed 8-value blend-mode enum. -/
inductive BlendMode where
  | screen | multiply | overlay | hardLight | softLight | colorDodge
  | lighten | normal
  deriving DecidableEq, Repr

/-- `BLEND_MODE_INDEX` from webgl-renderer.ts (WebGL integer indices). -/
def BLEND_MODE_INDEX : BlendMode → ℕ
  | .screen => 0
  | .multiply => 1
  | .overlay => 2
  | .hardLight => 3
  | .softLight => 4
  | .colorDodge => 5
  | .lighten => 6
  | .normal => 7

/-- `drift: false | true | { speed?, amplitude?, direction? }`. -/
inductive DriftSetting where
  | flag (b : Bool)
  | custom (speed amplitude : Option ℚ) (direction : Option String)
  deriving DecidableEq, Repr

/-- `wavy: false | true | { scale?, speed?, intensity? }`. -/
inductive WavySetting where
  | flag (b : Bool)
  | custom (scale speed intensity : Option ℚ)
  deriving DecidableEq, Repr

/-- `OrbRenderConfig` from types.ts. -/
structure OrbRenderConfig where
  id : String
  color : String
  position : ℚ × ℚ
  size : ℚ
  blur : ℚ
  blendMode : BlendMode
  drift : DriftSetting
  wavy : WavySetting
  interactive : Bool
  deriving DecidableEq, Repr

/-- `MAX_ORBS = 8` (uniform array size) from webgl-renderer.ts. -/
def MAX_ORBS : ℕ := 8

/-- `InternalOrb` from webgl-renderer.ts: the spread config plus the
derived `orbitParams`, `colorVec3` and `blendModeIndex` fields. -/
structure InternalOrb where
  config : OrbRenderConfig
  orbitParams : OrbitParams
  colorVec3 : ℚ × ℚ × ℚ
  blendModeIndex : ℕ

/-- The WebGL renderer's `setOrbs(configs)`: returns the new internal
orb list and the number of console warnings the call emits.

```ts
if (configs.length > MAX_ORBS) { console.warn(...); }
orbs = configs.slice(0, MAX_ORBS).map((config, index) => ({
  ...config,
  orbitParams: getOrbitParams(config.position[0], config.position[1], index, 50),
  colorVec3: hexToVec3(config.color),
  blendModeIndex: BLEND_MODE_INDEX[config.blendMode] ?? 0,
}));
```
-/
noncomputable def webglSetOrbs (configs : List OrbRenderConfig) :
    List InternalOrb × ℕ :=
  ((configs.take MAX_ORBS).mapIdx fun index config =>
    { config := config
      orbitParams := getOrbitParams config.position.1 config.position.2 index 50
      colorVec3 := hexToVec3 config.color
      blendModeIndex := BLEND_MODE_INDEX config.blendMode },
   if configs.length > MAX_ORBS then 1 else 0)

/-! ## Frame-loop state machine (canvas-renderer.ts / webgl-renderer.ts)

Both backends share verbatim the same `start` / `stop` / `render`
structure over the closure state `running : boolean` and
`animationId : number | null`, with `requestAnimationFrame` scheduling
one pending callback and `cancelAnimationFrame` cancelling it. We model
the browser's callback queue explicitly as the list of scheduled,
not-yet-fired callback ids. -/

/-- Renderer loop state plus the browser's pending-callback queue. -/
structure LoopState where
  running : Bool
  animationId : Option ℕ
  pending : List ℕ
  nextId : ℕ
  deriving DecidableEq, Repr

/-- State before `start` is ever called. -/
def LoopState.init : LoopState := ⟨false, none, [], 0⟩

/-- `requestAnimationFrame(render)`: schedules one callback, returns its id. -/
def rafSchedule (s : LoopState) : ℕ × LoopState :=
  (s.nextId, { s with pending := s.pending ++ [s.nextId], nextId := s.nextId + 1 })

/-- `start()`:
`if (running) return; running = true; animationId = requestAnimationFrame(render);` -/
def loopStart (s : LoopState) : LoopState :=
  if s.running then s
  else
    let s1 := { s with running := true }
    let idAndState := rafSchedule s1
    { idAndState.2 with animationId := some idAndState.1 }

/-- `stop()`:
`running = false; if (animationId !== null) { cancelAnimationFrame(animationId); animationId = null; }` -/
def loopStop (s : LoopState) : LoopState :=
  let s1 := { s with running := false }
  match s1.animationId with
  | some id => { s1 with pending := s1.pending.erase id, animationId := none }
  | none => s1

/-- The browser fires the oldest pending callback (`render(time)`), whose
tail is `if (running) { animationId = requestAnimationFrame(render); }`. -/
def loopFire (s : LoopState) : LoopState :=
  match s.pending with
  | [] => s
  | _ :: rest =>
    let s1 := { s with pending := rest }
    if s1.running then
      let idAndState := rafSchedule s1
      { idAndState.2 with animationId := some idAndState.1 }
    else s1

/-- An event in the life of the frame loop: an external `start()` or
`stop()` call, or the browser firing the scheduled callback. -/
inductive LoopEvent where
  | start | stop | fire
  deriving DecidableEq, Repr

/-- Apply one event. -/
def stepLoop (s : LoopState) : LoopEvent → LoopState
  | .start => loopStart s
  | .stop => loopStop s
  | .fire => loopFire s

/-- Run a sequence of events from the initial state. -/
def runLoop (events : List LoopEvent) : LoopState :=
  events.foldl stepLoop LoopState.init

/-! ## `detectBestRenderer` (renderers/detect.ts) -/

/-- `RendererType` from types.ts. -/
inductive RendererType where
  | css | canvas | webgl
  deriving DecidableEq, Repr

/-- Whether `typeof document === 'undefined'` (SSR) or not (browser). -/
inductive JsEnv where
  | ssr | browser
  deriving DecidableEq, Repr

/-- `detectBestRenderer()` as a function of the environment and the
module-level `cachedRenderer`; returns the result and the new cache.

```ts
if (cachedRenderer) return cachedRenderer;
if (typeof document === 'undefined') { return 'css'; } // SSR — do not cache
cachedRenderer = 'css';
return cachedRenderer;
```
-/
def detectBestRenderer (env : JsEnv) (cachedRenderer : Option RendererType) :
    RendererType × Option RendererType :=
  match cachedRenderer with
  | some r => (r, cachedRenderer)
  | none =>
    match env with
    | .ssr => (.css, cachedRenderer)
    | .browser => (.css, some .css)

/-! ## Frame-loop invariant (shared helper lemmas for the start/stop model) -/

/-- Loop invariant: while running, the browser queue holds exactly the one
callback recorded in `animationId`; while stopped, the queue is empty. -/
def LoopInv (s : LoopState) : Prop :=
  (s.running = true → ∃ i, s.animationId = some i ∧ s.pending = [i]) ∧
  (s.running = false → s.pending = [])

lemma loopInv_init : LoopInv LoopState.init := by
  constructor <;> simp [LoopState.init]

lemma loopInv_start {s : LoopState} (h : LoopInv s) : LoopInv (loopStart s) := by
  by_cases hr : s.running
  · simpa [loopStart, hr] using h
  · have hp : s.pending = [] := h.2 (by simpa using hr)
    constructor
    · intro _
      refine ⟨s.nextId, ?_, ?_⟩
      · simp [loopStart, hr, rafSchedule]
      · simp [loopStart, hr, rafSchedule, hp]
    · intro hf
      simp [loopStart, hr, rafSchedule] at hf

lemma loopInv_stop {s : LoopState} (h : LoopInv s) : LoopInv (loopStop s) := by
  have hp : (loopStop s).pending = [] := by
    cases ha : s.animationId with
    | none =>
      have hr : s.running = false := by
        cases hr : s.running with
        | true => obtain ⟨i, hi, _⟩ := h.1 hr; rw [ha] at hi; cases hi
        | false => rfl
      simp [loopStop, ha, h.2 hr]
    | some id =>
      cases hr : s.running with
      | true =>
        obtain ⟨i, hi, hpend⟩ := h.1 hr
        rw [ha] at hi
        obtain rfl : id = i := Option.some.inj hi
        simp [loopStop, ha, hpend]
      | false => simp [loopStop, ha, h.2 hr]
  refine ⟨fun hf => ?_, fun _ => hp⟩
  have : (loopStop s).running = false := by
    cases ha : s.animationId <;> simp [loopStop, ha]
  rw [this] at hf
  cases hf

lemma loopInv_fire {s : LoopState} (h : LoopInv s) : LoopInv (loopFire s) := by
  cases hp : s.pending with
  | nil => simpa [loopFire, hp] using h
  | cons id rest =>
    cases hr : s.running with
    | true =>
      obtain ⟨i, hi, hpend⟩ := h.1 hr
      rw [hp] at hpend
      injection hpend with h1 h2
      subst h1
      subst h2
      constructor
      · intro _
        refine ⟨s.nextId, ?_, ?_⟩
        · simp [loopFire, hp, hr, rafSchedule]
        · simp [loopFire, hp, hr, rafSchedule]
      · intro hf
        simp [loopFire, hp, hr, rafSchedule] at hf
    | false =>
      have hnil : s.pending = [] := h.2 hr
      rw [hp] at hnil
      cases hnil

lemma loopInv_step {s : LoopState} (e : LoopEvent) (h : LoopInv s) :
    LoopInv (stepLoop s e) := by
  cases e
  · exact loopInv_start h
  · exact loopInv_stop h
  · exact loopInv_fire h

lemma loopInv_foldl (events : List LoopEvent) :
    ∀ s : LoopState, LoopInv s → LoopInv (events.foldl stepLoop s) := by
  induction events with
  | nil => exact fun s h => h
  | cons e rest ih => exact fun s h => ih _ (loopInv_step e h)

lemma loopInv_run (events : List LoopEvent) : LoopInv (runLoop events) :=
  loopInv_foldl events LoopState.init loopInv_init

lemma loopInv_pending_le_one {s : LoopState} (h : LoopInv s) :
    s.pending.length ≤ 1 := by
  cases hr : s.running with
  | true => obtain ⟨i, _, hpend⟩ := h.1 hr; simp [hpend]
  | false => simp [h.2 hr]

lemma loopInv_stop_clears {s : LoopState} (h : LoopInv s) :
    (loopStop s).pending = [] :=
  (loopInv_stop h).2 (by cases ha : s.animationId <;> simp [loopStop, ha])

/-! ## JS `%` wrap helpers (shared by the drift-offset claims)

`calculateDriftOffset` normalizes time with
`t = (((timeSec + delay) % duration) + duration) % duration`; these lemmas
characterize that double-mod wrap. -/

lemma jsMod_of_nonneg_lt {t d : ℝ} (hd : 0 < d) (h0 : 0 ≤ t) (h1 : t < d) :
    jsMod t d = t := by
  have h2 : 0 ≤ t / d := div_nonneg h0 hd.le
  have h3 : t / d < 1 := (div_lt_one hd).mpr h1
  have hfl : ⌊t / d⌋ = 0 := Int.floor_eq_zero_iff.mpr ⟨h2, h3⟩
  unfold jsMod jsTrunc
  rw [if_pos h2, hfl]
  push_cast
  ring

lemma jsMod_add_self_of_nonneg_lt {t d : ℝ} (hd : 0 < d) (h0 : 0 ≤ t)
    (h1 : t < d) : jsMod (t + d) d = t := by
  have h2 : 0 ≤ (t + d) / d := by positivity
  have hsplit : (t + d) / d = t / d + 1 := by field_simp
  have hfl : ⌊(t + d) / d⌋ = 1 := by
    rw [hsplit, Int.floor_add_one,
      Int.floor_eq_zero_iff.mpr ⟨div_nonneg h0 hd.le, (div_lt_one hd).mpr h1⟩]
    norm_num
  unfold jsMod jsTrunc
  rw [if_pos h2, hfl]
  push_cast
  ring

/-- The full wrap `((t % d) + d) % d` is the identity on `[0, d)`. -/
lemma jsWrap_of_nonneg_lt {t d : ℝ} (hd : 0 < d) (h0 : 0 ≤ t) (h1 : t < d) :
    jsMod (jsMod t d + d) d = t := by
  rw [jsMod_of_nonneg_lt hd h0 h1, jsMod_add_self_of_nonneg_lt hd h0 h1]

/-- The full wrap sends `d` itself to `0`. -/
lemma jsWrap_self {d : ℝ} (hd : 0 < d) :
    jsMod (jsMod d d + d) d = 0 := by
  have hm : jsMod d d = 0 := by
    have h1 : d / d = 1 := div_self hd.ne.symm
    unfold jsMod jsTrunc
    rw [h1, if_pos (by norm_num : (0:ℝ) ≤ 1)]
    norm_num
  rw [hm, zero_add]
  exact hm

/-- A single JS `%` by a positive modulus lands strictly inside `(-d, d)`. -/
lemma jsMod_mem_Ioo {a d : ℝ} (hd : 0 < d) : -d < jsMod a d ∧ jsMod a d < d := by
  unfold jsMod jsTrunc
  by_cases h : 0 ≤ a / d
  · rw [if_pos h]
    have ha : a = d * (a / d) := by field_simp
    constructor
    · nlinarith [Int.floor_le (a / d), Int.sub_one_lt_floor (a / d), h]
    · nlinarith [Int.floor_le (a / d), Int.sub_one_lt_floor (a / d), h]
  · rw [if_neg h]
    push_neg at h
    have ha : a = d * (a / d) := by field_simp
    constructor
    · nlinarith [Int.le_ceil (a / d), Int.ceil_lt_add_one (a / d), h.le]
    · nlinarith [Int.le_ceil (a / d), Int.ceil_lt_add_one (a / d), h.le]

/-- The full wrap lands in `[0, d)`. -/
lemma jsWrap_mem_Ico {a d : ℝ} (hd : 0 < d) :
    0 ≤ jsMod (jsMod a d + d) d ∧ jsMod (jsMod a d + d) d < d := by
  obtain ⟨hm1, hm2⟩ := jsMod_mem_Ioo (a := a) hd
  set b := jsMod a d + d with hb
  have hb0 : 0 < b := by simp only [hb]; linarith
  have hb2 : b < 2 * d := by simp only [hb]; linarith
  have hy0 : 0 ≤ b / d := by positivity
  have hble : b / d < 2 := by rw [div_lt_iff₀ hd]; linarith
  have hfl : ⌊b / d⌋ = 0 ∨ ⌊b / d⌋ = 1 := by
    have h0le : (0:ℤ) ≤ ⌊b / d⌋ := Int.floor_nonneg.mpr hy0
    have hlt : ⌊b / d⌋ < 2 := Int.floor_lt.mpr (by exact_mod_cast hble)
    omega
  show 0 ≤ jsMod b d ∧ jsMod b d < d
  unfold jsMod jsTrunc
  rw [if_pos hy0]
  rcases hfl with hfl | hfl
  · rw [hfl]
    have hlt1 : b / d < 1 := by
      have := Int.lt_floor_add_one (b / d)
      rw [hfl] at this
      push_cast at this
      linarith
    have : b < d := (div_lt_one hd).mp hlt1
    constructor <;> push_cast <;> nlinarith
  · rw [hfl]
    have hge1 : (1:ℝ) ≤ b / d := by
      have := Int.floor_le (b / d)
      rw [hfl] at this
      push_cast at this
      linarith
    have : d ≤ b := (one_le_div hd).mp hge1
    constructor <;> push_cast <;> nlinarith

/-- The full wrap differs from its argument by an integer multiple of `d`. -/
lemma jsWrap_sub_int (a d : ℝ) :
    ∃ k : ℤ, jsMod (jsMod a d + d) d = a - d * k := by
  refine ⟨jsTrunc (a / d) - 1 + jsTrunc ((jsMod a d + d) / d), ?_⟩
  unfold jsMod
  push_cast
  ring

/-- The full wrap is periodic with period `d`. -/
lemma jsWrap_period {a d : ℝ} (hd : 0 < d) :
    jsMod (jsMod (a + d) d + d) d = jsMod (jsMod a d + d) d := by
  obtain ⟨k1, hk1⟩ := jsWrap_sub_int (a + d) d
  obtain ⟨k2, hk2⟩ := jsWrap_sub_int a d
  obtain ⟨h10, h11⟩ := jsWrap_mem_Ico (a := a + d) hd
  obtain ⟨h20, h21⟩ := jsWrap_mem_Ico (a := a) hd
  have hdiff : jsMod (jsMod (a + d) d + d) d - jsMod (jsMod a d + d) d =
      d * ((1 : ℤ) + k2 - k1) := by
    rw [hk1, hk2]
    push_cast
    ring
  have hzero : (1 : ℤ) + k2 - k1 = 0 := by
    by_contra hne
    have habs1 : (1:ℝ) ≤ |(((1 : ℤ) + k2 - k1 : ℤ) : ℝ)| := by
      rw [← Int.cast_abs]
      exact_mod_cast Int.one_le_abs hne
    have habs2 : |jsMod (jsMod (a + d) d + d) d - jsMod (jsMod a d + d) d| < d :=
      abs_lt.mpr ⟨by linarith, by linarith⟩
    rw [hdiff, abs_mul, abs_of_pos hd] at habs2
    push_cast at habs1 habs2
    have hmul : d * 1 ≤ d * |1 + (k2:ℝ) - (k1:ℝ)| :=
      mul_le_mul_of_nonneg_left habs1 hd.le
    linarith
  have hcast : (1:ℝ) + (k2:ℝ) - (k1:ℝ) = 0 := by exact_mod_cast hzero
  push_cast at hdiff
  rw [hcast, mul_zero] at hdiff
  linarith

/-! ## Claim theorems -/

/-- C9: for every sequence of `start()` / `stop()` calls (interleaved with the
browser firing the scheduled callback), at most one frame-loop callback is
pending at any time, and a `stop()` call leaves no pending callback, so the
loop halts. -/
theorem frame_loop_at_most_one_pending (events : List LoopEvent) :
    (runLoop events).pending.length ≤ 1 ∧
    (stepLoop (runLoop events) LoopEvent.stop).pending = [] :=
  ⟨loopInv_pending_le_one (loopInv_run events),
   loopInv_stop_clears (loopInv_run events)⟩

/-- C10: `detectBestRenderer()` in an SSR context (document undefined) with an
unset cache returns `css` and leaves the cache unset, and the cache is written
only by a browser-context evaluation on an unset cache. -/
theorem detect_ssr_does_not_poison_cache :
    detectBestRenderer JsEnv.ssr none = (RendererType.css, none) ∧
    ∀ (env : JsEnv) (cached : Option RendererType),
      (detectBestRenderer env cached).2 = cached ∨
      (env = JsEnv.browser ∧ cached = none ∧
        (detectBestRenderer env cached).2 = some RendererType.css) := by
  refine ⟨rfl, fun env cached => ?_⟩
  cases env <;> cases cached <;> simp [detectBestRenderer]

/-- C2: `setOrbs` with more than 8 orb configs truncates the internal orb
list to exactly the first 8 configs of the input in order, and emits exactly
one console warning (and, being a total function of its input, throws no
exception). -/
theorem setOrbs_truncates_to_eight (configs : List OrbRenderConfig)
    (h : configs.length > MAX_ORBS) :
    (webglSetOrbs configs).1.map InternalOrb.config = configs.take MAX_ORBS ∧
    (webglSetOrbs configs).1.length = MAX_ORBS ∧
    (webglSetOrbs configs).2 = 1 := by
  refine ⟨?_, ?_, ?_⟩
  · simp only [webglSetOrbs, List.mapIdx_eq_enum_map, List.map_map]
    have hcomp : (InternalOrb.config ∘ Function.uncurry fun index config =>
        ({ config := config
           orbitParams := getOrbitParams config.position.1 config.position.2 index 50
           colorVec3 := hexToVec3 config.color
           blendModeIndex := BLEND_MODE_INDEX config.blendMode } : InternalOrb)) =
        Prod.snd := by
      funext p
      rfl
    rw [hcomp, List.enum_map_snd]
  · simp [webglSetOrbs]
    omega
  · simp [webglSetOrbs, h]

/-- A cheap concrete orb config. -/
def sampleConfig : OrbRenderConfig :=
  { id := "o", color := "#ff0000", position := (1/2, 1/2), size := 30,
    blur := 60, blendMode := .screen, drift := .flag false,
    wavy := .flag false, interactive := false }

/-- Nine orb configs, one more than the WebGL capacity. -/
def nineConfigs : List OrbRenderConfig := List.replicate 9 sampleConfig

/-- Witness for C2 at a concrete 9-element input. -/
theorem setOrbs_truncates_to_eight_witness :
    nineConfigs.length > MAX_ORBS ∧
    ((webglSetOrbs nineConfigs).1.map InternalOrb.config = nineConfigs.take MAX_ORBS ∧
     (webglSetOrbs nineConfigs).1.length = MAX_ORBS ∧
     (webglSetOrbs nineConfigs).2 = 1) :=
  ⟨by decide, setOrbs_truncates_to_eight nineConfigs (by decide)⟩

/-- C4 counterexample: `"#ff00001"` has 7 characters after stripping `#`
(wrong length, hence malformed under the claim), yet `hexToVec3` parses its
first six digits and returns red, not the black fallback. -/
theorem hexToVec3_wrong_length_not_black :
    (removeFirstHash "#ff00001".toList).length = 7 ∧
    hexToVec3 "#ff00001" ≠ (0, 0, 0) := by
  with_unfolding_all decide

/-- C4 (amended): `hexToVec3` is total (never throws), and returns the black
fallback `[0,0,0]` whenever the cleaned input is shorter than 6 characters or
any of the three 2-character components fails to parse as a hex number under
JS `parseInt` semantics (longest hex prefix). Wrong-length inputs longer than
6 digits, and components with a parsable hex prefix followed by junk, are
parsed rather than rejected. -/
theorem hexToVec3_black_fallback (s : String)
    (h : (removeFirstHash s.toList).length < 6 ∨
      jsParseIntHex (jsSubstring (removeFirstHash s.toList) 0 2) = none ∨
      jsParseIntHex (jsSubstring (removeFirstHash s.toList) 2 4) = none ∨
      jsParseIntHex (jsSubstring (removeFirstHash s.toList) 4 6) = none) :
    hexToVec3 s = (0, 0, 0) := by
  have hdata : String.toList s = s.data := rfl
  rw [hdata] at h
  unfold hexToVec3
  rw [hdata]
  by_cases hl : (removeFirstHash s.data).length < 6
  · simp [hl]
  · rcases h with h | h | h | h
    · exact absurd h hl
    · simp [hl, h]
    · cases hr : jsParseIntHex (jsSubstring (removeFirstHash s.data) 0 2) <;>
        simp [hl, h, hr]
    · cases hr : jsParseIntHex (jsSubstring (removeFirstHash s.data) 0 2) <;>
        cases hg : jsParseIntHex (jsSubstring (removeFirstHash s.data) 2 4) <;>
        simp [hl, h, hr, hg]

/-- Witness for C4 (amended) at the concrete malformed input `"zz"`. -/
theorem hexToVec3_black_fallback_witness :
    ((removeFirstHash "zz".toList).length < 6 ∨
      jsParseIntHex (jsSubstring (removeFirstHash "zz".toList) 0 2) = none ∨
      jsParseIntHex (jsSubstring (removeFirstHash "zz".toList) 2 4) = none ∨
      jsParseIntHex (jsSubstring (removeFirstHash "zz".toList) 4 6) = none) ∧
    hexToVec3 "zz" = (0, 0, 0) :=
  ⟨Or.inl (by with_unfolding_all decide),
   hexToVec3_black_fallback "zz" (Or.inl (by with_unfolding_all decide))⟩

/-- C8: the white round trip fails on the code. The achromatic branch of
`hexToHsl` does return hue 0 and saturation 0, but leaves lightness unscaled
(0–1 instead of the percent scale the chromatic branch and `hslToHex` use),
so `hslToHex(hexToHsl("#ffffff")) = "#030303"`, not `"#ffffff"`. The
chromatic colors `#ff0000` and `#4a90d9` — and, because `l = 0` is a fixed
point of either scale, `#000000` — do round-trip exactly. -/
theorem hsl_white_roundtrip_fails :
    (hexToHsl "#ffffff").map (fun c => hslToHex c.h c.s c.l) = some "#030303" ∧
    "#030303" ≠ "#ffffff" ∧
    hexToHsl "#ffffff" = some ⟨0, 0, 1⟩ ∧
    (hexToHsl "#ff0000").map (fun c => hslToHex c.h c.s c.l) = some "#ff0000" ∧
    (hexToHsl "#000000").map (fun c => hslToHex c.h c.s c.l) = some "#000000" ∧
    (hexToHsl "#4a90d9").map (fun c => hslToHex c.h c.s c.l) = some "#4a90d9" := by
  with_unfolding_all decide

/-- C3 counterexample: at position `(0, 0)` the positional seed is 0,
`Math.sin(0) = 0` makes `rand1 = 0`, so `getOrbitParams(0, 0, 0, 100)`
yields `amplitudeX = 2`, not the claimed maximum bound 10. -/
theorem breathing_hundred_not_pinned_at_ten :
    (getOrbitParams 0 0 0 100).amplitudeX ≠ 10 := by
  have h2 : (getOrbitParams 0 0 0 100).amplitudeX = 2 := by
    simp [getOrbitParams, seededRandom, positionSeed, MIN_AMPLITUDE, MAX_AMPLITUDE]
  rw [h2]
  norm_num

/-- C3 (amended): `breathing = 0` pins both amplitudes at the minimum bound 2
for every position and index; `breathing = 100` yields amplitudes of the form
`2 + rand · (10 − 2)` with `rand ∈ [0, 1)`, i.e. values in `[2, 10)` — the
maximum bound 10 is a supremum that is never attained. -/
theorem amplitude_bounds (x y : ℝ) (index : ℕ) :
    (getOrbitParams x y index 0).amplitudeX = 2 ∧
    (getOrbitParams x y index 0).amplitudeY = 2 ∧
    2 ≤ (getOrbitParams x y index 100).amplitudeX ∧
    (getOrbitParams x y index 100).amplitudeX < 10 ∧
    2 ≤ (getOrbitParams x y index 100).amplitudeY ∧
    (getOrbitParams x y index 100).amplitudeY < 10 := by
  have hfr : ∀ s : ℝ, 0 ≤ seededRandom s ∧ seededRandom s < 1 := by
    intro s
    have h1 : seededRandom s = Int.fract (Real.sin s * 10000) := rfl
    rw [h1]
    exact ⟨Int.fract_nonneg _, Int.fract_lt_one _⟩
  obtain ⟨ha1, ha2⟩ := hfr (positionSeed x y)
  obtain ⟨hb1, hb2⟩ := hfr (positionSeed x y + 1)
  refine ⟨?_, ?_, ?_, ?_, ?_, ?_⟩ <;>
    simp [getOrbitParams, MIN_AMPLITUDE, MAX_AMPLITUDE] <;> nlinarith

/-- C5: at `position = [0.5, 0.5]`, `breathing = 0`: index 0 gives
`amplitudeX = amplitudeY = 2` and `duration = 40` s; index 3 gives
`duration = 40 · (1 + 3 · 0.3) = 76` s. -/
theorem concrete_scenario_params :
    (getOrbitParams 0.5 0.5 0 0).amplitudeX = 2 ∧
    (getOrbitParams 0.5 0.5 0 0).amplitudeY = 2 ∧
    (getOrbitParams 0.5 0.5 0 0).duration = 40 ∧
    (getOrbitParams 0.5 0.5 3 0).duration = 76 := by
  refine ⟨?_, ?_, ?_, ?_⟩ <;>
    (simp [getOrbitParams, MIN_AMPLITUDE, MAX_AMPLITUDE, MIN_DURATION,
      MAX_DURATION]; try norm_num)

set_option maxRecDepth 400000 in
/-- C1 counterexample: the fragment shader declares no `u_orbWavy` uniform
at all, and the distance it uses for the radial falloff is perturbed by the
fractal noise even for an orb carrying no wavy data: at pixel `(0.5, 0.5)`,
time 0, orb index 0, a base distance of 0 becomes a non-zero distance. -/
theorem shader_noise_not_gated_by_wavy :
    "u_orbWavy" ∉ fragmentShaderUniforms ∧
    shaderOrbDist 0 (1/2, 1/2) 0 0 ≠ 0 := by
  constructor
  · decide
  · with_unfolding_all decide

/-- C1 (amended): the shader's uniform binding contract has no `u_orbWavy`
entry, and the 4-octave simplex-noise perturbation is applied to every orb
unconditionally: for every orb index, pixel, time and base distance, the
distance used for the radial falloff is the base distance plus
`fbm(vec3(uv·3, t·0.3 + i)) · 0.08`, independent of any wavy flag. -/
theorem shader_perturbs_every_orb (baseDist t : ℚ) (uv : ℚ × ℚ) (i : ℕ) :
    "u_orbWavy" ∉ fragmentShaderUniforms ∧
    shaderOrbDist baseDist uv t i - baseDist =
      fbm ⟨uv.1 * 3, uv.2 * 3, t * 0.3 + (i : ℚ)⟩ * 0.08 := by
  constructor
  · decide
  · simp [shaderOrbDist]

/-- C7: for every `OrbitParams` with positive duration (delay arbitrary,
negative values included) and every time `t`, the drift offset repeats
exactly after `duration · 1000` milliseconds. -/
theorem drift_offset_periodic (params : OrbitParams) (t : ℝ)
    (hd : 0 < params.duration) :
    calculateDriftOffset params t =
      calculateDriftOffset params (t + params.duration * 1000) := by
  have hne : ¬ params.duration ≤ 0 := not_le.mpr hd
  simp only [calculateDriftOffset, hne, if_false]
  rw [show (t + params.duration * 1000) / 1000 + params.delay
      = t / 1000 + params.delay + params.duration from by ring,
    jsWrap_period hd]

/-- Witness for C7 at concrete params (amplitudes 1, duration 1 s, delay 0). -/
theorem drift_offset_periodic_witness :
    0 < (OrbitParams.mk 1 1 1 0).duration ∧
    calculateDriftOffset ⟨1, 1, 1, 0⟩ 0 =
      calculateDriftOffset ⟨1, 1, 1, 0⟩
        (0 + (OrbitParams.mk 1 1 1 0).duration * 1000) :=
  ⟨one_pos, drift_offset_periodic ⟨1, 1, 1, 0⟩ 0 one_pos⟩

/-- `calculateDriftOffset` at phase fraction `k/8` of a cycle (delay 0,
duration `d`, `k < 8`): the wrap is the identity and the angle is `k·π/4`. -/
lemma driftOffset_at_phase (ax ay d : ℝ) (hd : 0 < d) (k : ℕ) (hk : k < 8) :
    calculateDriftOffset ⟨ax, ay, d, 0⟩ ((k : ℝ) / 8 * d * 1000) =
      (Real.cos ((k : ℝ) * Real.pi / 4) * ax / 100,
       Real.sin ((k : ℝ) * Real.pi / 4) * ay / 100) := by
  have hne : ¬ d ≤ 0 := not_le.mpr hd
  simp only [calculateDriftOffset, hne, if_false]
  rw [show ((k : ℝ) / 8 * d * 1000) / 1000 + 0 = (k : ℝ) / 8 * d from by ring]
  have h0 : 0 ≤ (k : ℝ) / 8 * d := by positivity
  have h1 : (k : ℝ) / 8 * d < d := by
    have hk8 : (k : ℝ) < 8 := by exact_mod_cast hk
    nlinarith
  rw [jsWrap_of_nonneg_lt hd h0 h1]
  have hang : (k : ℝ) / 8 * d / d * Real.pi * 2 = (k : ℝ) * Real.pi / 4 := by
    rw [mul_div_assoc, div_self hd.ne.symm, mul_one]
    ring
  rw [hang]

/-- `calculateDriftOffset` at phase fraction `8/8` (a full cycle): the wrap
sends the time back to 0, giving the same offset as phase 0. -/
lemma driftOffset_at_phase_eight (ax ay d : ℝ) (hd : 0 < d) :
    calculateDriftOffset ⟨ax, ay, d, 0⟩ ((8 : ℝ) / 8 * d * 1000) =
      (ax / 100, 0) := by
  have hne : ¬ d ≤ 0 := not_le.mpr hd
  simp only [calculateDriftOffset, hne, if_false]
  rw [show ((8 : ℝ) / 8 * d * 1000) / 1000 + 0 = d from by ring, jsWrap_self hd]
  rw [show (0:ℝ) / d * Real.pi * 2 = 0 from by rw [zero_div, zero_mul, zero_mul]]
  simp

/-- C6: the `k`-th entry of the discrete drift keyframe list has offset
fraction `k/8`, and its translate percentages are exactly 100 times the
continuous `calculateDriftOffset` evaluated at phase fraction `k/8` of any
cycle of duration `d > 0` (diagonal steps use `cos 45° = sin 45° = √2/2`). -/
theorem keyframes_sample_drift_offset (ax ay d : ℝ) (hd : 0 < d) (k : ℕ)
    (hk : k ≤ 8) :
    (generateDriftKeyframes ax ay)[k]? = some
      ⟨(k : ℚ) / 8,
       100 * (calculateDriftOffset ⟨ax, ay, d, 0⟩ ((k : ℝ) / 8 * d * 1000)).1,
       100 * (calculateDriftOffset ⟨ax, ay, d, 0⟩ ((k : ℝ) / 8 * d * 1000)).2⟩ := by
  interval_cases k
  · rw [driftOffset_at_phase ax ay d hd 0 (by norm_num)]
    simp [generateDriftKeyframes, DriftKeyframe.mk.injEq]
    ring
  · rw [driftOffset_at_phase ax ay d hd 1 (by norm_num)]
    simp only [generateDriftKeyframes, DriftKeyframe.mk.injEq]
    norm_num [Real.cos_pi_div_four, Real.sin_pi_div_four]
    ring_nf
    simp
  · rw [driftOffset_at_phase ax ay d hd 2 (by norm_num)]
    simp only [generateDriftKeyframes, DriftKeyframe.mk.injEq]
    rw [show ((2:ℕ) : ℝ) * Real.pi / 4 = Real.pi / 2 from by push_cast; ring]
    norm_num [Real.cos_pi_div_two, Real.sin_pi_div_two]
    ring
  · rw [driftOffset_at_phase ax ay d hd 3 (by norm_num)]
    simp only [generateDriftKeyframes, DriftKeyframe.mk.injEq]
    rw [show ((3:ℕ) : ℝ) * Real.pi / 4 = Real.pi - Real.pi / 4 from by push_cast; ring]
    norm_num [Real.cos_pi_sub, Real.sin_pi_sub, Real.cos_pi_div_four,
      Real.sin_pi_div_four]
    ring_nf
    simp
  · rw [driftOffset_at_phase ax ay d hd 4 (by norm_num)]
    simp only [generateDriftKeyframes, DriftKeyframe.mk.injEq]
    rw [show ((4:ℕ) : ℝ) * Real.pi / 4 = Real.pi from by push_cast; ring]
    norm_num [Real.cos_pi, Real.sin_pi]
    ring
  · rw [driftOffset_at_phase ax ay d hd 5 (by norm_num)]
    simp only [generateDriftKeyframes, DriftKeyframe.mk.injEq]
    rw [show ((5:ℕ) : ℝ) * Real.pi / 4 = Real.pi / 4 + Real.pi from by push_cast; ring]
    norm_num [Real.cos_add_pi, Real.sin_add_pi, Real.cos_pi_div_four,
      Real.sin_pi_div_four]
    ring_nf
    simp
  · rw [driftOffset_at_phase ax ay d hd 6 (by norm_num)]
    simp only [generateDriftKeyframes, DriftKeyframe.mk.injEq]
    rw [show ((6:ℕ) : ℝ) * Real.pi / 4 = Real.pi / 2 + Real.pi from by push_cast; ring]
    norm_num [Real.cos_add_pi, Real.sin_add_pi, Real.cos_pi_div_two,
      Real.sin_pi_div_two]
    ring
  · rw [driftOffset_at_phase ax ay d hd 7 (by norm_num)]
    simp only [generateDriftKeyframes, DriftKeyframe.mk.injEq]
    rw [show ((7:ℕ) : ℝ) * Real.pi / 4 = (Real.pi - Real.pi / 4) + Real.pi from by
      push_cast; ring]
    norm_num [Real.cos_add_pi, Real.sin_add_pi, Real.cos_pi_sub, Real.sin_pi_sub,
      Real.cos_pi_div_four, Real.sin_pi_div_four]
    ring_nf
    simp
  · push_cast
    rw [driftOffset_at_phase_eight ax ay d hd]
    simp [generateDriftKeyframes, DriftKeyframe.mk.injEq]
    ring

/-- Witness for C6 at `ax = ay = 1`, `d = 1`, `k = 0`. -/
theorem keyframes_sample_drift_offset_witness :
    (0:ℝ) < 1 ∧ (0:ℕ) ≤ 8 ∧
    (generateDriftKeyframes 1 1)[(0:ℕ)]? = some
      ⟨((0:ℕ) : ℚ) / 8,
       100 * (calculateDriftOffset ⟨1, 1, 1, 0⟩ (((0:ℕ) : ℝ) / 8 * 1 * 1000)).1,
       100 * (calculateDriftOffset ⟨1, 1, 1, 0⟩ (((0:ℕ) : ℝ) / 8 * 1 * 1000)).2⟩ :=
  ⟨one_pos, by norm_num,
   keyframes_sample_drift_offset 1 1 1 one_pos 0 (by norm_num)⟩

end Orbkit
